import Mathlib

/-!
Shallow embedding of the ntp-client program (src/main.rs) and verification of
claims about it.

Modelling conventions:
* chrono `DateTime<Utc>` instants are integers counting nanoseconds since the
  Unix epoch; chrono `TimeDelta` values are integer nanosecond counts.
  `TimeDelta::num_milliseconds` and `TimeDelta / 2` both round toward negative
  infinity (chrono keeps `secs : i64` with `0 ≤ nanos < 10^9`, so
  `num_milliseconds = secs*1000 + nanos/10^6 = floor(total_nanos/10^6)`, and
  its `Div` impl floors likewise); for the positive constant divisors used
  here Lean's `Int` division `/` (`Int.ediv`) is exactly that floor division.
* Machine integers are `Nat`/`Int`; `u32` values are `Nat`s together with a
  `< 2^32` bound where it matters, and the Rust `as u32` casts are written as
  explicit `% 2^32` / truncation operations.
* `f64` arithmetic in the aggregation is modelled by exact rationals plus a
  `nonfinite` marker (`F64`): finite values are kept exactly, and division by
  zero produces `nonfinite` (covering IEEE NaN/±Inf, which is all the program
  ever inspects via `is_finite`).  Every concrete computation a theorem below
  evaluates is exactly representable in binary64, so the idealisation agrees
  with the Rust program there.
* Fallible Rust functions land in `RunResult`: `ok`, a returned `Err`, or a
  process-aborting panic (`panic!`, `expect`, `unwrap`, slice range failure).
-/

namespace NtpClient

/-- Model of `std::io::Error`: the underlying cause, as text. -/
abbrev IOError := String

/-- Outcome of running a Rust function: a normal return, a returned `Err`
value, or a process-aborting panic. -/
inductive RunResult (α : Type) where
  | ok (a : α)
  | err (e : IOError)
  | panicked (msg : String)
  deriving DecidableEq

/-- `NTP_MESSAGE_LENGTH` (src/main.rs:13). -/
def NTP_MESSAGE_LENGTH : ℕ := 48

/-- `NTP_TO_UNIX_SECONDS` (src/main.rs:15). -/
def NTP_TO_UNIX_SECONDS : ℤ := 2208988800

/-- `struct NTPTimestamp` (src/main.rs:18-23): two `u32` fields. -/
structure NTPTimestamp where
  seconds : ℕ
  fraction : ℕ
  deriving DecidableEq

/-- `struct NTPMessage` (src/main.rs:25-27): the 48-byte buffer, as a byte
list (theorems carry the `length = 48` invariant of the Rust array). -/
structure NTPMessage where
  data : List ℕ
  deriving DecidableEq

/-- `struct NTPResult` (src/main.rs:29-38): the four exchange instants, each
a chrono `DateTime<Utc>` modelled as nanoseconds since the Unix epoch. -/
structure NTPResult where
  t1 : ℤ
  t2 : ℤ
  t3 : ℤ
  t4 : ℤ
  deriving DecidableEq

/-- chrono `TimeDelta::num_milliseconds`: floor division of the nanosecond
count by 10^6 (see the module comment). -/
def num_milliseconds (d : ℤ) : ℤ := d / 1000000

/-- `NTPResult::delay` (src/main.rs:41-44): `((t4 - t1) - (t3 - t2)).num_milliseconds()`. -/
def NTPResult.delay (r : NTPResult) : ℤ :=
  num_milliseconds ((r.t4 - r.t1) - (r.t3 - r.t2))

/-- `NTPResult::offset` (src/main.rs:46-49):
`(((t2 - t1) + (t4 - t3)) / 2).num_milliseconds()`; chrono's `TimeDelta` halving
floors, as does Lean's integer `/ 2` followed by `num_milliseconds`. -/
def NTPResult.offset (r : NTPResult) : ℤ :=
  num_milliseconds (((r.t2 - r.t1) + (r.t4 - r.t3)) / 2)

/-- An `f64` as the program observes it: an exact finite rational, or a
non-finite value (NaN or ±infinity, which `is_finite` rejects alike). -/
inductive F64 where
  | fin (q : ℚ)
  | nonfinite
  deriving DecidableEq

/-- IEEE division as observed through `is_finite`: a finite quotient is kept
exactly; division of a finite value by zero gives ±Inf/NaN (`nonfinite`), and
any non-finite operand yields a non-finite result. -/
def F64.div : F64 → F64 → F64
  | .fin a, .fin b => if b = 0 then .nonfinite else .fin (a / b)
  | _, _ => .nonfinite

/-- `f64::is_finite`. -/
def F64.is_finite : F64 → Bool
  | .fin _ => true
  | .nonfinite => false

/-- The `weighted_sum` binding in `weighted_mean` (src/main.rs:120-124):
`values.iter().zip(weights.iter()).map(|(v, w)| v * w).sum()`. -/
def weighted_sum (values weights : List ℚ) : ℚ :=
  ((values.zip weights).map fun p => p.1 * p.2).sum

/-- The `total_weight` binding in `weighted_mean` (src/main.rs:126):
`weights.iter().sum()`. -/
def total_weight (weights : List ℚ) : ℚ := weights.sum

/-- `weighted_mean` (src/main.rs:119-129): `weighted_sum / total_weight`, an
`f64` division that silently yields NaN when the total weight is zero. -/
def weighted_mean (values weights : List ℚ) : F64 :=
  F64.div (.fin (weighted_sum values weights)) (.fin (total_weight weights))

/-- `NTPMessage::new` (src/main.rs:78-82): the zeroed 48-byte buffer. -/
def NTPMessage.new : NTPMessage := ⟨List.replicate NTP_MESSAGE_LENGTH 0⟩

/-- `LEAP_INDICATOR` (src/main.rs:88). -/
def LEAP_INDICATOR : ℕ := 0b00000000

/-- `VERSION` (src/main.rs:89). -/
def VERSION : ℕ := 0b00011000

/-- `MODE` (src/main.rs:90). -/
def MODE : ℕ := 0b00000011

/-- `NTPMessage::client` (src/main.rs:84-95):
`message.data[0] |= LEAP_INDICATOR | VERSION | MODE`. -/
def NTPMessage.client : NTPMessage :=
  let message := NTPMessage.new
  ⟨message.data.set 0 (message.data.getD 0 0 ||| (LEAP_INDICATOR ||| VERSION ||| MODE))⟩

/-- byteorder `read_u32::<BigEndian>` on a byte slice: consumes four bytes,
most significant first, and returns the value with the rest of the slice;
fails (an UnexpectedEof `std::io::Error`) when fewer than four bytes remain. -/
def read_u32_be : List ℕ → Option (ℕ × List ℕ)
  | b0 :: b1 :: b2 :: b3 :: rest =>
    some (((b0 * 256 + b1) * 256 + b2) * 256 + b3, rest)
  | _ => none

/-- `NTPMessage::parse_timestamp` (src/main.rs:97-102): slices
`&self.data[i..i + 8]` — which panics when `i + 8` exceeds the buffer length,
exactly as Rust range indexing does — then reads two big-endian `u32`s
(seconds, then fraction) from the slice. -/
def NTPMessage.parse_timestamp (m : NTPMessage) (i : ℕ) : RunResult NTPTimestamp :=
  if i + 8 ≤ m.data.length then
    match read_u32_be ((m.data.drop i).take 8) with
    | some (seconds, rest) =>
      match read_u32_be rest with
      | some (fraction, _) => .ok ⟨seconds, fraction⟩
      | none => .err "failed to fill whole buffer"
    | none => .err "failed to fill whole buffer"
  else .panicked "range end index out of range for slice"

/-- `NTPMessage::rx_time` (src/main.rs:104-107): the receive timestamp t2,
parsed at byte offset 32. -/
def NTPMessage.rx_time (m : NTPMessage) : RunResult NTPTimestamp :=
  m.parse_timestamp 32

/-- `NTPMessage::tx_time` (src/main.rs:109-112): the transmit timestamp t3,
parsed at byte offset 40. -/
def NTPMessage.tx_time (m : NTPMessage) : RunResult NTPTimestamp :=
  m.parse_timestamp 40

/-- The byte of a message at index `j` (defaulting to zero out of range);
spec-side accessor used to state what `parse_timestamp` reads. -/
def byte_at (m : NTPMessage) (j : ℕ) : ℕ := m.data.getD j 0

/-- The body of the second loop in `check_time` (src/main.rs:179-188), over
the already-extracted `(offset, delay)` pairs of the collected exchanges
(both are `i64` values read through `as f64`, which is exact for every
magnitude a real exchange can produce): computes
`weight = 1_000_000.0 / (delay * delay)` and pushes offset and weight onto
the `offsets` / `offset_weights` vectors only when the weight is finite. -/
def build_samples : List (ℚ × ℚ) → List ℚ × List ℚ
  | [] => ([], [])
  | (offset, delay) :: rest =>
    let (offsets, offset_weights) := build_samples rest
    match F64.div (.fin 1000000) (.fin (delay * delay)) with
    | .fin weight => (offset :: offsets, weight :: offset_weights)
    | .nonfinite => (offsets, offset_weights)

/-- The aggregation tail of `check_time` (src/main.rs:176-191): build the
sample vectors, then take their weighted mean. -/
def aggregate_pairs (samples : List (ℚ × ℚ)) : F64 :=
  let (offsets, offset_weights) := build_samples samples
  weighted_mean offsets offset_weights

/-- The per-server loop of `check_time` (src/main.rs:165-175), over the
outcome of each server's `ntp_roundtrim` call: successful exchanges are
collected in order, a returned error only prints a line and skips that
server, and a panic aborts the whole run. -/
def collect_times : List (RunResult NTPResult) → RunResult (List NTPResult)
  | [] => .ok []
  | .ok time :: rest =>
    match collect_times rest with
    | .ok times => .ok (time :: times)
    | .err e => .err e
    | .panicked msg => .panicked msg
  | .err _ :: rest => collect_times rest
  | .panicked msg :: _ => .panicked msg

/-- `check_time` (src/main.rs:153-192), with the per-server network outcomes
supplied as an environment (the Rust function hardcodes five server names and
calls `ntp_roundtrim` on each): collect the successful exchanges, compute
`offset` and `delay` of each, drop non-finite weights, and return
`Ok(weighted_mean(..))` — the function has no error path of its own. -/
def check_time (results : List (RunResult NTPResult)) : RunResult F64 :=
  match collect_times results with
  | .ok times =>
    .ok (aggregate_pairs (times.map fun t => ((t.offset : ℚ), (t.delay : ℚ))))
  | .err e => .err e
  | .panicked msg => .panicked msg

/-- chrono `Utc.timestamp_opt(secs, nanos).single()` as the program's
`unwrap` observes it: the instant `secs` seconds plus `nanos` nanoseconds
after the Unix epoch, defined exactly when `secs` lies in chrono's
representable calendar range (`DateTime::<Utc>::MIN_UTC` at -8334601228800 s
up to `MAX_UTC` at 8210266876799 s) and `nanos < 10^9` (chrono additionally
accepts a leap-second range `[10^9, 2*10^9)` that this program never
produces — the nanosecond values reaching this call are proved `< 10^9`
below, so the stricter guard is equivalent here). -/
def timestamp_opt (secs : ℤ) (nanos : ℕ) : Option ℤ :=
  if -8334601228800 ≤ secs ∧ secs ≤ 8210266876799 ∧ nanos < 1000000000 then
    some (secs * 1000000000 + nanos)
  else none

/-- `impl From<NTPTimestamp> for DateTime<Utc>` (src/main.rs:52-61):
`secs = ntp.seconds as i64 - NTP_TO_UNIX_SECONDS`, and
`nanos = (ntp.fraction as f64 * 1e9 / 2f64.powi(32)) as u32`.  On a `u32`
fraction the f64 computation is exact: `fraction` (≤ 32 bits) times
`10^9 = 1953125 * 2^9` needs at most 53 significant bits, and dividing by the
power of two `2^32` is always exact, so the `as u32` truncation is exactly
the Nat floor division below.  The result feeds
`Utc.timestamp_opt(secs, nanos).unwrap()`, whose failure is a panic. -/
def datetime_of_ntp (ntp : NTPTimestamp) : RunResult ℤ :=
  let secs : ℤ := (ntp.seconds : ℤ) - NTP_TO_UNIX_SECONDS
  let nanos : ℕ := ntp.fraction * 1000000000 / 2 ^ 32
  match timestamp_opt secs nanos with
  | some t => .ok t
  | none => .panicked "called Option::unwrap() on a None value"

/-- `impl From<DateTime<Utc>> for NTPTimestamp` (src/main.rs:63-74):
`secs = utc.timestamp() + NTP_TO_UNIX_SECONDS` cast `as u32` (an `i64 → u32`
as-cast, i.e. wrapping: the low 32 bits, written `% 4294967296` here), and
`fraction = (utc.nanosecond() as f64 * 2f64.powi(32) / 1e9) as u32`.  The f64
steps: `nanosecond() < 10^9 < 2^30` is exact in f64, scaling by the power of
two `2^32` is exact, and the division by `10^9` rounds to nearest with error
below `2^-22` (the quotient is below `2^32`), while a non-integer exact
quotient `ns * 2^23 / 5^9` is at least `5^-9 > 2^-21` away from any integer
— so truncating the rounded quotient equals truncating the exact one, i.e.
the Nat floor division below. -/
def NTPTimestamp.of_datetime (utc : ℤ) : NTPTimestamp :=
  let secs : ℤ := utc / 1000000000 + NTP_TO_UNIX_SECONDS
  let fraction : ℕ := (utc % 1000000000).toNat * 2 ^ 32 / 1000000000
  { seconds := (secs % 4294967296).toNat, fraction := fraction }

/-- The network environment one `ntp_roundtrim` call runs against: the
outcome of each fallible I/O step (`none` meaning success), the two local
clock readings `Utc::now()` produces, and the bytes the server's response
delivers into the buffer. -/
structure NetEnv where
  bind_err : Option IOError
  connect_err : Option IOError
  send_err : Option IOError
  set_timeout_err : Option IOError
  recv_err : Option IOError
  t1 : ℤ
  t4 : ℤ
  received : List ℕ

/-- The response buffer after `recv_from` (src/main.rs:144): the
zero-initialised 48-byte buffer of `NTPMessage::new`, its prefix overwritten
by the received bytes. -/
def recv_buffer (env : NetEnv) : List ℕ :=
  env.received.take 48 ++ List.replicate (48 - env.received.length) 0

/-- `ntp_roundtrim` (src/main.rs:131-151): bind (`?`), connect — written
`.expect("Unable to connect")`, a panic on failure — then send (`?`),
`set_read_timeout` (`?`), the timed `recv_from` (`?`), and finally
`rx_time().unwrap().into()` / `tx_time().unwrap().into()`, where the unwraps
and the conversions panic rather than return on failure. -/
def ntp_roundtrim (env : NetEnv) : RunResult NTPResult :=
  match env.bind_err with
  | some e => .err e
  | none =>
    match env.connect_err with
    | some _ => .panicked "Unable to connect"
    | none =>
      match env.send_err with
      | some e => .err e
      | none =>
        match env.set_timeout_err with
        | some e => .err e
        | none =>
          match env.recv_err with
          | some e => .err e
          | none =>
            let response : NTPMessage := ⟨recv_buffer env⟩
            match response.rx_time with
            | .ok ts2 =>
              (match datetime_of_ntp ts2 with
               | .ok t2 =>
                 (match response.tx_time with
                  | .ok ts3 =>
                    (match datetime_of_ntp ts3 with
                     | .ok t3 => .ok ⟨env.t1, t2, t3, env.t4⟩
                     | .err e => .err e
                     | .panicked msg => .panicked msg)
                  | .err _ => .panicked "called Result::unwrap() on an Err value"
                  | .panicked msg => .panicked msg)
               | .err e => .err e
               | .panicked msg => .panicked msg)
            | .err _ => .panicked "called Result::unwrap() on an Err value"
            | .panicked msg => .panicked msg

theorem zip_take_length (vs ws : List ℚ) :
    vs.zip (ws.take vs.length) = vs.zip ws := by
  induction vs generalizing ws with
  | nil => simp
  | cons v vs ih =>
    cases ws with
    | nil => simp
    | cons w ws => simp [ih]

/-- C5: `NTPMessage::client` returns a 48-byte buffer whose byte 0 is exactly
`0b00011011` — leap indicator 0, version 3, mode 3 packed as
`(leap<<6)|(version<<3)|mode` — and whose other 47 bytes are all zero. -/
theorem C5_client_request_bytes :
    NTPMessage.client.data = 0b00011011 :: List.replicate 47 0
      ∧ (0b00011011 : ℕ) = (0 <<< 6) ||| (3 <<< 3) ||| 3
      ∧ NTPMessage.client.data.length = 48 := by
  refine ⟨by decide, by decide, by decide⟩

/-- C4: for millisecond-aligned instants, `delay` is `(t4 - t1) - (t3 - t2)`
and `offset` is `((t2 - t1) + (t4 - t3)) / 2`, both in milliseconds, with no
clamping (the signed value is returned as-is); and when `t1 = t2 = t3 = t4`
both delay and offset are `0`. -/
theorem C4_delay_offset_formula (a b c d t : ℤ) :
    NTPResult.delay ⟨a * 1000000, b * 1000000, c * 1000000, d * 1000000⟩
        = (d - a) - (c - b)
      ∧ NTPResult.offset ⟨a * 1000000, b * 1000000, c * 1000000, d * 1000000⟩
        = ((b - a) + (d - c)) / 2
      ∧ NTPResult.delay ⟨t, t, t, t⟩ = 0
      ∧ NTPResult.offset ⟨t, t, t, t⟩ = 0 := by
  simp only [NTPResult.delay, NTPResult.offset, num_milliseconds]
  refine ⟨by omega, by omega, by omega, by omega⟩

/-- C10: in `weighted_mean`, the numerator only sees the first
`min (values.length) (weights.length)` pairs (truncating the weights list to
`values.length` leaves it unchanged), while the denominator sums every weight
in the weights list — so an extra unpaired weight dilutes the result
(`weighted_mean [10] [1, 1] = 5`, not the true mean `10`, which the
equal-length call `weighted_mean [10] [1]` does return). -/
theorem C10_weighted_mean_length_mismatch :
    (∀ vs ws : List ℚ, weighted_sum vs ws = weighted_sum vs (ws.take vs.length))
      ∧ total_weight [1, 1] = 2
      ∧ weighted_mean [10] [1, 1] = F64.fin 5
      ∧ weighted_mean [10] [1] = F64.fin 10 := by
  refine ⟨fun vs ws => ?_, ?_, ?_, ?_⟩
  · rw [weighted_sum, weighted_sum, zip_take_length]
  · norm_num [total_weight]
  · norm_num [weighted_mean, weighted_sum, total_weight, F64.div]
  · norm_num [weighted_mean, weighted_sum, total_weight, F64.div]

theorem take_eight_drop (l : List ℕ) (i : ℕ) (h : i + 8 ≤ l.length) :
    (l.drop i).take 8 =
      [l.getD i 0, l.getD (i + 1) 0, l.getD (i + 2) 0, l.getD (i + 3) 0,
       l.getD (i + 4) 0, l.getD (i + 5) 0, l.getD (i + 6) 0, l.getD (i + 7) 0] := by
  induction i generalizing l with
  | zero =>
    rcases l with _ | ⟨b0, l⟩
    · simp at h
    rcases l with _ | ⟨b1, l⟩
    · simp at h
    rcases l with _ | ⟨b2, l⟩
    · simp at h
    rcases l with _ | ⟨b3, l⟩
    · simp at h
    rcases l with _ | ⟨b4, l⟩
    · simp at h
    rcases l with _ | ⟨b5, l⟩
    · simp at h
    rcases l with _ | ⟨b6, l⟩
    · simp at h
    rcases l with _ | ⟨b7, l⟩
    · simp at h
    rfl
  | succ i ih =>
    rcases l with _ | ⟨a, l⟩
    · simp at h
    · have e : ∀ k : ℕ, i + 1 + k = (i + k) + 1 := fun k => by omega
      have h' : i + 8 ≤ l.length := by
        simp only [List.length_cons] at h; omega
      simp only [List.drop_succ_cons, e, List.getD_cons_succ]
      exact ih l h'

/-- C7: for every 48-byte message and byte offset with at least 8 bytes
remaining, `parse_timestamp` reads 8 bytes starting at the offset as two
big-endian unsigned 32-bit integers, seconds first then fraction; `rx_time`
parses at byte offset 32 and `tx_time` at byte offset 40. -/
theorem C7_parse_big_endian (m : NTPMessage) (i : ℕ)
    (h48 : m.data.length = 48) (hi : i + 8 ≤ 48) :
    m.parse_timestamp i =
        .ok ⟨byte_at m i * 16777216 + byte_at m (i + 1) * 65536
              + byte_at m (i + 2) * 256 + byte_at m (i + 3),
             byte_at m (i + 4) * 16777216 + byte_at m (i + 5) * 65536
              + byte_at m (i + 6) * 256 + byte_at m (i + 7)⟩
      ∧ m.rx_time = m.parse_timestamp 32
      ∧ m.tx_time = m.parse_timestamp 40 := by
  refine ⟨?_, rfl, rfl⟩
  unfold NTPMessage.parse_timestamp
  rw [if_pos (by omega), take_eight_drop m.data i (by omega)]
  simp only [read_u32_be, byte_at, RunResult.ok.injEq, NTPTimestamp.mk.injEq]
  constructor <;> ring

/-- Witness for C7 at the zeroed 48-byte message and offset 0. -/
theorem C7_parse_big_endian_witness :
    NTPMessage.new.parse_timestamp 0 = .ok ⟨0, 0⟩
      ∧ NTPMessage.new.rx_time = NTPMessage.new.parse_timestamp 32 := by
  have h := C7_parse_big_endian NTPMessage.new 0 (by decide) (by decide)
  exact ⟨by rw [h.1]; decide, h.2.1⟩

/-- C3 counterexample: on the (48-byte, zeroed) message, `parse_timestamp 41`
— fewer than 8 bytes remain, since 41 + 8 > 48 — panics with a slice range
failure; it does not return a `ParseError::Truncated` value (no `ParseError`
type exists in the program, whose error type is `std::io::Error`). -/
theorem C3_counterexample :
    NTPMessage.new.parse_timestamp 41
      = .panicked "range end index out of range for slice" := by
  decide

/-- C3 amended: for every 48-byte buffer and every byte offset from which
fewer than 8 bytes remain, `parse_timestamp` panics with a slice
index-out-of-range failure (aborting the process) instead of returning an
error; it never returns a zeroed or garbage timestamp. -/
theorem C3_truncated_panics (m : NTPMessage) (i : ℕ)
    (h48 : m.data.length = 48) (h : 48 < i + 8) :
    m.parse_timestamp i = .panicked "range end index out of range for slice" := by
  unfold NTPMessage.parse_timestamp
  rw [if_neg (by omega)]

/-- Witness for the amended C3 at a concrete out-of-range offset. -/
theorem C3_truncated_panics_witness :
    NTPMessage.new.parse_timestamp 45
      = .panicked "range end index out of range for slice" :=
  C3_truncated_panics NTPMessage.new 45 (by decide) (by decide)

theorem collect_times_all_zero_delay (results : List (RunResult NTPResult))
    (h : ∀ r ∈ results, (∃ e, r = .err e) ∨ ∃ t, r = .ok t ∧ t.delay = 0) :
    ∃ ts, collect_times results = .ok ts ∧ ∀ t ∈ ts, t.delay = 0 := by
  induction results with
  | nil => exact ⟨[], rfl, by simp⟩
  | cons r rest ih =>
    obtain ⟨ts, hc, hz⟩ := ih fun x hx => h x (List.mem_cons_of_mem _ hx)
    rcases h r (List.mem_cons_self _ _) with ⟨e, rfl⟩ | ⟨t, rfl, hd⟩
    · exact ⟨ts, by simpa [collect_times] using hc, hz⟩
    · refine ⟨t :: ts, by simp [collect_times, hc], ?_⟩
      intro u hu
      rcases List.mem_cons.mp hu with rfl | hu
      · exact hd
      · exact hz u hu

theorem build_samples_zero_delay (ts : List NTPResult)
    (h : ∀ t ∈ ts, t.delay = 0) :
    build_samples (ts.map fun t => ((t.offset : ℚ), (t.delay : ℚ))) = ([], []) := by
  induction ts with
  | nil => rfl
  | cons t ts ih =>
    have h0 : (t.delay : ℚ) = 0 := by simp [h t (List.mem_cons_self _ _)]
    simp [build_samples, h0, F64.div,
      ih fun u hu => h u (List.mem_cons_of_mem _ hu)]

/-- C1 amended: if zero servers contribute a finite-weight sample — every
server's exchange fails, or every successful exchange has `delay = 0` ms so
its weight `1e6/delay²` is non-finite — `check_time` silently returns `Ok` of
the non-finite `f64` value NaN produced by the `0.0 / 0.0` division in
`weighted_mean`; it does not fail with `AggregationError::NoData` (no
`AggregationError` type exists in the program). -/
theorem C1_no_data_gives_nan (results : List (RunResult NTPResult))
    (h : ∀ r ∈ results, (∃ e, r = .err e) ∨ ∃ t, r = .ok t ∧ t.delay = 0) :
    check_time results = .ok F64.nonfinite := by
  obtain ⟨ts, hc, hz⟩ := collect_times_all_zero_delay results h
  simp [check_time, hc, aggregate_pairs, build_samples_zero_delay ts hz,
    weighted_mean, weighted_sum, total_weight, F64.div]

/-- Witness for the amended C1: one failed server plus one zero-delay server
still yield `Ok(NaN)`. -/
theorem C1_no_data_gives_nan_witness :
    check_time [.err "connection refused", .ok ⟨5, 5, 5, 5⟩]
      = .ok F64.nonfinite := by
  apply C1_no_data_gives_nan
  intro r hr
  rcases List.mem_cons.mp hr with rfl | hr
  · exact Or.inl ⟨"connection refused", rfl⟩
  · rcases List.mem_cons.mp hr with rfl | hr
    · exact Or.inr ⟨⟨5, 5, 5, 5⟩, rfl, by decide⟩
    · simp at hr

/-- C1 counterexample: with all five servers failing, `check_time` returns
`Ok` of the non-finite value NaN (from the `0.0 / 0.0` in `weighted_mean`)
rather than failing with `AggregationError::NoData`. -/
theorem C1_counterexample :
    check_time (List.replicate 5 (.err "response took too long"))
      = .ok F64.nonfinite := by
  decide

/-- C6: each sample's weight is `1_000_000 / delay²`; a sample whose weight
is not finite (zero delay) is excluded entirely; and on the two samples
(offset 10, delay 10) and (offset 20, delay 20) the aggregate offset equals
`(10*10000 + 20*2500) / (10000 + 2500)` exactly, which is strictly closer to
10 than to 20. -/
theorem C6_inverse_square_weighting (o d : ℚ) (rest : List (ℚ × ℚ))
    (hd : d ≠ 0) :
    build_samples ((o, d) :: rest)
        = (o :: (build_samples rest).1, 1000000 / (d * d) :: (build_samples rest).2)
      ∧ aggregate_pairs ((o, 0) :: rest) = aggregate_pairs rest
      ∧ aggregate_pairs [(10, 10), (20, 20)]
        = .fin ((10 * 10000 + 20 * 2500) / (10000 + 2500))
      ∧ ((10 * 10000 + 20 * 2500 : ℚ) / (10000 + 2500)) - 10
        < 20 - (10 * 10000 + 20 * 2500) / (10000 + 2500) := by
  refine ⟨?_, ?_, ?_, by norm_num⟩
  · rcases hbs : build_samples rest with ⟨os, ws⟩
    simp [build_samples, hbs, F64.div, mul_ne_zero hd hd]
  · rcases hbs : build_samples rest with ⟨os, ws⟩
    simp [aggregate_pairs, build_samples, hbs, F64.div]
  · norm_num [aggregate_pairs, build_samples, F64.div, weighted_mean,
      weighted_sum, total_weight]

/-- Witness for C6 at offset 1, delay 1, empty tail. -/
theorem C6_inverse_square_weighting_witness :
    build_samples [(1, 1)]
        = (1 :: (build_samples []).1, 1000000 / (1 * 1) :: (build_samples []).2)
      ∧ aggregate_pairs [(1, 0)] = aggregate_pairs []
      ∧ aggregate_pairs [(10, 10), (20, 20)]
        = .fin ((10 * 10000 + 20 * 2500) / (10000 + 2500))
      ∧ ((10 * 10000 + 20 * 2500 : ℚ) / (10000 + 2500)) - 10
        < 20 - (10 * 10000 + 20 * 2500) / (10000 + 2500) :=
  C6_inverse_square_weighting 1 1 [] (by norm_num)

theorem getD_lt_256 (l : List ℕ) (hb : ∀ b ∈ l, b < 256) (j : ℕ) :
    l.getD j 0 < 256 := by
  induction l generalizing j with
  | nil => simp [List.getD_nil]
  | cons a l ih =>
    cases j with
    | zero => simpa using hb a (List.mem_cons_self _ _)
    | succ j => simpa using ih (fun b hm => hb b (List.mem_cons_of_mem _ hm)) j

theorem nanos_lt_of_u32 (f : ℕ) (hf : f < 2 ^ 32) :
    f * 1000000000 / 2 ^ 32 < 1000000000 := by
  have e32 : (2:ℕ) ^ 32 = 4294967296 := by norm_num
  rw [e32] at hf ⊢
  omega

theorem datetime_of_ntp_ok (ntp : NTPTimestamp)
    (hs : ntp.seconds < 2 ^ 32) (hf : ntp.fraction < 2 ^ 32) :
    datetime_of_ntp ntp
      = .ok (((ntp.seconds : ℤ) - 2208988800) * 1000000000
          + ((ntp.fraction * 1000000000 / 2 ^ 32 : ℕ) : ℤ)) := by
  have e32 : (2:ℕ) ^ 32 = 4294967296 := by norm_num
  have hn := nanos_lt_of_u32 ntp.fraction hf
  rw [e32] at hs hf hn
  simp only [datetime_of_ntp, timestamp_opt, NTP_TO_UNIX_SECONDS, e32]
  have hcond : -8334601228800 ≤ (ntp.seconds : ℤ) - 2208988800
      ∧ (ntp.seconds : ℤ) - 2208988800 ≤ 8210266876799
      ∧ ntp.fraction * 1000000000 / 4294967296 < 1000000000 :=
    ⟨by omega, by omega, hn⟩
  rw [if_pos hcond]

theorem parse_timestamp_ok_of_bytes (m : NTPMessage) (i : ℕ)
    (h48 : m.data.length = 48) (hb : ∀ b ∈ m.data, b < 256) (hi : i + 8 ≤ 48) :
    ∃ s f, m.parse_timestamp i = .ok ⟨s, f⟩ ∧ s < 2 ^ 32 ∧ f < 2 ^ 32 := by
  have hd := getD_lt_256 m.data hb
  refine ⟨((m.data.getD i 0 * 256 + m.data.getD (i+1) 0) * 256
        + m.data.getD (i+2) 0) * 256 + m.data.getD (i+3) 0,
      ((m.data.getD (i+4) 0 * 256 + m.data.getD (i+5) 0) * 256
        + m.data.getD (i+6) 0) * 256 + m.data.getD (i+7) 0, ?_, ?_, ?_⟩
  · unfold NTPMessage.parse_timestamp
    rw [if_pos (by omega), take_eight_drop m.data i (by omega)]
    simp [read_u32_be]
  · have h0 := hd i
    have h1 := hd (i+1)
    have h2 := hd (i+2)
    have h3 := hd (i+3)
    have e32 : (2:ℕ) ^ 32 = 4294967296 := by norm_num
    rw [e32]
    omega
  · have h0 := hd (i+4)
    have h1 := hd (i+5)
    have h2 := hd (i+6)
    have h3 := hd (i+7)
    have e32 : (2:ℕ) ^ 32 = 4294967296 := by norm_num
    rw [e32]
    omega

theorem recv_buffer_length (env : NetEnv) : (recv_buffer env).length = 48 := by
  unfold recv_buffer
  simp only [List.length_append, List.length_take, List.length_replicate]
  omega

theorem recv_buffer_bytes (env : NetEnv) (hb : ∀ b ∈ env.received, b < 256) :
    ∀ b ∈ recv_buffer env, b < 256 := by
  intro b hm
  rcases List.mem_append.mp hm with h | h
  · exact hb b (List.mem_of_mem_take h)
  · rw [List.eq_of_mem_replicate h]
    norm_num

/-- C2 counterexample: a failing `connect` is not returned as a
`NetworkError` — `ntp_roundtrim` runs
`udp.connect(dest).expect("Unable to connect")` and panics, aborting the
process, contradicting "it never aborts the process". -/
theorem C2_counterexample :
    ntp_roundtrim ⟨none, some "connection refused", none, none, none, 0, 0, []⟩
      = .panicked "Unable to connect" := rfl

/-- C2 amended: a failing bind, send, set_read_timeout, or timed read
(including a timeout) makes `ntp_roundtrim` return the underlying
`std::io::Error` to its caller, and the aggregator turns a returned error
into skipping that server rather than aborting the aggregation; but a
failing connect panics and aborts the process (see the counterexample), so
the claim holds only for the other four steps. -/
theorem C2_network_errors_returned (env : NetEnv) (e : IOError) :
    (env.bind_err = some e → ntp_roundtrim env = .err e)
      ∧ (env.bind_err = none → env.connect_err = none → env.send_err = some e →
          ntp_roundtrim env = .err e)
      ∧ (env.bind_err = none → env.connect_err = none → env.send_err = none →
          env.set_timeout_err = some e → ntp_roundtrim env = .err e)
      ∧ (env.bind_err = none → env.connect_err = none → env.send_err = none →
          env.set_timeout_err = none → env.recv_err = some e →
          ntp_roundtrim env = .err e)
      ∧ (∀ results, check_time (.err e :: results) = check_time results) := by
  obtain ⟨b, c, s, st, r, ht1, ht4, buf⟩ := env
  refine ⟨fun h1 => ?_, fun h1 h2 h3 => ?_, fun h1 h2 h3 h4 => ?_,
      fun h1 h2 h3 h4 h5 => ?_, fun results => rfl⟩ <;> subst_vars <;> rfl

/-- Witness for the amended C2: a failing bind returns the error, and the
aggregator skips an errored server. -/
theorem C2_network_errors_returned_witness :
    ntp_roundtrim ⟨some "address in use", none, none, none, none, 0, 0, []⟩
        = .err "address in use"
      ∧ check_time [.err "address in use"] = check_time [] :=
  ⟨(C2_network_errors_returned
      ⟨some "address in use", none, none, none, none, 0, 0, []⟩
      "address in use").1 rfl,
   (C2_network_errors_returned
      ⟨some "address in use", none, none, none, none, 0, 0, []⟩
      "address in use").2.2.2.2 []⟩

/-- C9: for every `NTPTimestamp` (two `u32` fields), conversion to a calendar
time never panics — the computed nanosecond value `fraction * 10^9 / 2^32` is
always strictly below `10^9` and `seconds - 2208988800` always lies in the
valid calendar range, so the internal unwrap succeeds; likewise `rx_time` and
`tx_time` on a fixed 48-byte message always return `Ok`, so when every
network step succeeds the unwraps in `ntp_roundtrim` never panic and the
exchange returns `Ok`. -/
theorem C9_conversion_never_panics (ntp : NTPTimestamp)
    (hs : ntp.seconds < 2 ^ 32) (hf : ntp.fraction < 2 ^ 32)
    (m : NTPMessage) (h48 : m.data.length = 48) (hm : ∀ b ∈ m.data, b < 256)
    (env : NetEnv)
    (henv : env.bind_err = none ∧ env.connect_err = none ∧ env.send_err = none
      ∧ env.set_timeout_err = none ∧ env.recv_err = none)
    (hrecv : ∀ b ∈ env.received, b < 256) :
    ntp.fraction * 1000000000 / 2 ^ 32 < 1000000000
      ∧ (∃ t, datetime_of_ntp ntp = .ok t)
      ∧ (∃ ts, m.rx_time = .ok ts)
      ∧ (∃ ts, m.tx_time = .ok ts)
      ∧ (∃ r, ntp_roundtrim env = .ok r) := by
  obtain ⟨s2, f2, hrx, hs2, hf2⟩ :=
    parse_timestamp_ok_of_bytes m 32 h48 hm (by norm_num)
  obtain ⟨s3, f3, htx, hs3, hf3⟩ :=
    parse_timestamp_ok_of_bytes m 40 h48 hm (by norm_num)
  refine ⟨nanos_lt_of_u32 ntp.fraction hf, ⟨_, datetime_of_ntp_ok ntp hs hf⟩,
      ⟨⟨s2, f2⟩, hrx⟩, ⟨⟨s3, f3⟩, htx⟩, ?_⟩
  obtain ⟨b, c, s, st, r, ht1, ht4, buf⟩ := env
  obtain ⟨h1, h2, h3, h4, h5⟩ := henv
  simp only at h1 h2 h3 h4 h5 hrecv
  subst_vars
  have h48r : (NTPMessage.mk (recv_buffer ⟨none, none, none, none, none, ht1, ht4, buf⟩)).data.length = 48 :=
    recv_buffer_length _
  have hbr : ∀ x ∈ (NTPMessage.mk (recv_buffer ⟨none, none, none, none, none, ht1, ht4, buf⟩)).data, x < 256 :=
    recv_buffer_bytes _ hrecv
  obtain ⟨u2, v2, hrx2, hu2, hv2⟩ :=
    parse_timestamp_ok_of_bytes _ 32 h48r hbr (by norm_num)
  obtain ⟨u3, v3, htx2, hu3, hv3⟩ :=
    parse_timestamp_ok_of_bytes _ 40 h48r hbr (by norm_num)
  refine ⟨⟨ht1,
      ((u2 : ℤ) - 2208988800) * 1000000000 + ((v2 * 1000000000 / 2 ^ 32 : ℕ) : ℤ),
      ((u3 : ℤ) - 2208988800) * 1000000000 + ((v3 * 1000000000 / 2 ^ 32 : ℕ) : ℤ),
      ht4⟩, ?_⟩
  dsimp only [ntp_roundtrim, NTPMessage.rx_time, NTPMessage.tx_time]
  simp only [hrx2, datetime_of_ntp_ok ⟨u2, v2⟩ hu2 hv2, htx2,
    datetime_of_ntp_ok ⟨u3, v3⟩ hu3 hv3]

/-- Witness for C9 at the zero timestamp, the zeroed message, and an
all-success environment with an empty response. -/
theorem C9_conversion_never_panics_witness :
    (0 : ℕ) * 1000000000 / 2 ^ 32 < 1000000000
      ∧ (∃ t, datetime_of_ntp ⟨0, 0⟩ = .ok t)
      ∧ (∃ ts, NTPMessage.new.rx_time = .ok ts)
      ∧ (∃ ts, NTPMessage.new.tx_time = .ok ts)
      ∧ (∃ r, ntp_roundtrim ⟨none, none, none, none, none, 0, 0, []⟩ = .ok r) :=
  C9_conversion_never_panics ⟨0, 0⟩ (by norm_num) (by norm_num)
    NTPMessage.new (by decide) (by decide)
    ⟨none, none, none, none, none, 0, 0, []⟩ ⟨rfl, rfl, rfl, rfl, rfl⟩
    (by simp)

/-- C8 counterexample: the calendar instant 1 ns after the Unix epoch
converts to protocol fraction 4 and back to 0 ns — a round-trip error of one
full nanosecond, exceeding one fractional-field unit (2^-32 s ≈ 0.233 ns). -/
theorem C8_counterexample :
    NTPTimestamp.of_datetime 1 = ⟨2208988800, 4⟩
      ∧ datetime_of_ntp (NTPTimestamp.of_datetime 1) = .ok 0
      ∧ ((1 : ℚ) - 0) / 1000000000 > 1 / 2 ^ 32 := by
  refine ⟨by decide, by decide, by norm_num⟩

/-- C8 amended: for every calendar instant whose protocol seconds fit in
`u32`, converting to a protocol timestamp and back yields the same whole
second with the nanosecond part reduced by at most one — the round trip is
lossy by up to one full nanosecond (not merely one 2^-32 s fractional
unit). -/
theorem C8_round_trip_within_nanosecond (t : ℤ)
    (h0 : 0 ≤ t / 1000000000 + 2208988800)
    (h1 : t / 1000000000 + 2208988800 < 4294967296) :
    ∃ t', datetime_of_ntp (NTPTimestamp.of_datetime t) = .ok t'
      ∧ t - 1 ≤ t' ∧ t' ≤ t := by
  have e32 : (2:ℕ) ^ 32 = 4294967296 := by norm_num
  have hmod : (t / 1000000000 + 2208988800) % 4294967296
      = t / 1000000000 + 2208988800 := Int.emod_eq_of_lt h0 h1
  have hof : NTPTimestamp.of_datetime t
      = ⟨(t / 1000000000 + 2208988800).toNat,
         (t % 1000000000).toNat * 4294967296 / 1000000000⟩ := by
    simp only [NTPTimestamp.of_datetime, NTP_TO_UNIX_SECONDS, e32, hmod]
  have hfr : (t % 1000000000).toNat * 4294967296 / 1000000000 < 4294967296 := by
    omega
  refine ⟨(((t / 1000000000 + 2208988800).toNat : ℤ) - 2208988800) * 1000000000
      + (((t % 1000000000).toNat * 4294967296 / 1000000000 * 1000000000
          / 4294967296 : ℕ) : ℤ), ?_, by omega, by omega⟩
  rw [hof]
  simp only [datetime_of_ntp, timestamp_opt, NTP_TO_UNIX_SECONDS, e32]
  have hcond :
      -8334601228800 ≤ ((t / 1000000000 + 2208988800).toNat : ℤ) - 2208988800
      ∧ ((t / 1000000000 + 2208988800).toNat : ℤ) - 2208988800 ≤ 8210266876799
      ∧ (t % 1000000000).toNat * 4294967296 / 1000000000 * 1000000000
          / 4294967296 < 1000000000 :=
    ⟨by omega, by omega, by omega⟩
  rw [if_pos hcond]

/-- Witness for the amended C8 at the instant 1 ns after the Unix epoch. -/
theorem C8_round_trip_within_nanosecond_witness :
    ∃ t', datetime_of_ntp (NTPTimestamp.of_datetime 1) = .ok t'
      ∧ (1 : ℤ) - 1 ≤ t' ∧ t' ≤ 1 :=
  C8_round_trip_within_nanosecond 1 (by decide) (by decide)

end NtpClient
